import Mathlib

/-!
Shallow embedding of the neckcheck posture monitor (src/src/main.rs) and
proofs about it.

The program's effectful boundaries (camera driver, face detector, terminal,
window) are modelled as explicit inputs: a detection result is a list of
bounding boxes handed to the function, the camera driver's behaviour on one
capture is a record of success flags, and the Rust `panic!` in
`NeckCheck::check` is modelled as `Except.error` with the panic message.
Machine integers (`u32` widths/heights, `i32` coordinates) are modelled as
`Nat`/`Int`; the program only compares them, never does arithmetic, so no
wrap-around can occur and the modelling is exact.
-/

namespace NeckCheckModel

/-- `Size` from main.rs: `{ width: u32, height: u32 }`. -/
structure Size where
  width : Nat
  height : Nat
deriving DecidableEq

/-- `Size::new` from main.rs. -/
def Size.new (width height : Nat) : Size :=
  { width := width, height := height }

/-- `imageproc::rect::Rect` as used by `FaceDetector::detect`:
`Rect::at(x, y).of_size(width, height)` with `i32` position and `u32` size. -/
structure Rect where
  x : Int
  y : Int
  width : Nat
  height : Nat
deriving DecidableEq

/-- `NeckCheckCalibration` from main.rs: the maximum allowed size of the face
detection box before the user is deemed too close. -/
structure NeckCheckCalibration where
  max_detection_size : Size
deriving DecidableEq

/-- `NeckCheck::check` (main.rs lines 216-232), with the detection result of
this call passed in as `faces` and the monitor's `self.calibration` passed in
as `calibration`.  The Rust function:
  - returns `true` if `faces.is_empty()`;
  - otherwise runs `panic!("No calibration!")` if `self.calibration.is_none()`
    (modelled as `Except.error "No calibration!"`);
  - otherwise takes `faces.first().unwrap()` and returns `false` when
    `face.width() > calib.max_detection_size.width ||
     face.height() > calib.max_detection_size.height`, `true` otherwise. -/
def check (calibration : Option NeckCheckCalibration) (faces : List Rect) :
    Except String Bool :=
  match faces with
  | [] => Except.ok true
  | face :: _ =>
    match calibration with
    | none => Except.error "No calibration!"
    | some calib =>
      if face.width > calib.max_detection_size.width
          ∨ face.height > calib.max_detection_size.height then
        Except.ok false
      else
        Except.ok true

/-- The per-sample filtering inside the `calibrate` loop body (main.rs lines
196-202): a sample with more than one face is discarded (`faces.clear()`),
any other sample is kept as is. -/
def calibrateFilter (faces : List Rect) : List Rect :=
  if faces.length > 1 then [] else faces

/-- `NeckCheck::calibrate` (main.rs lines 187-214), with the stream of
detection results the loop would observe passed in as `samples` (one entry
per loop iteration).  The Rust loop `while faces.is_empty()` re-prompts on an
empty (after clearing) sample; on exit it records
`Size::new(face.width(), face.height())` of `faces.first().unwrap()`.
`none` means the sample stream was exhausted with the loop still running
(the real loop would keep blocking for further samples). -/
def calibrate : List (List Rect) → Option NeckCheckCalibration
  | [] => none
  | sample :: rest =>
    match calibrateFilter sample with
    | [] => calibrate rest
    | face :: _ => some { max_detection_size := Size.new face.width face.height }

/-- The operations of `impl NeckCheck` that run after construction, each
carrying the external detection input it would observe.  `checkOp` and
`detectOp` read `self.calibration` but never assign it; `calibrateOp` runs
the calibration loop over its sample stream. -/
inductive MonitorOp where
  | checkOp (faces : List Rect)
  | detectOp (faces : List Rect)
  | calibrateOp (samples : List (List Rect))
deriving DecidableEq

/-- Effect of one `NeckCheck` operation on the `self.calibration` field.
`check` and `detect` do not assign the field; `calibrate` assigns
`Some(...)` after its loop exits, and makes no assignment while the loop is
still running (modelled by the `none` branch: the stream was exhausted with
the loop incomplete, so the field still has its old value). -/
def applyOp (calibration : Option NeckCheckCalibration) :
    MonitorOp → Option NeckCheckCalibration
  | MonitorOp.checkOp _ => calibration
  | MonitorOp.detectOp _ => calibration
  | MonitorOp.calibrateOp samples =>
    match calibrate samples with
    | some c => some c
    | none => calibration

/-- Whether a monitor operation is a `calibrate` call. -/
def MonitorOp.isCalibrate : MonitorOp → Bool
  | MonitorOp.calibrateOp _ => true
  | _ => false

/-- `WebCamMode` from main.rs. -/
inductive WebCamMode where
  | Continuous
  | Discrete
deriving DecidableEq

/-- `WebCamError` from main.rs (each variant carries the driver's message). -/
inductive WebCamError where
  | FrameGrabError (msg : String)
  | StreamOpenError (msg : String)
  | StreamCloseError (msg : String)
  | FrameDecodeError (msg : String)
deriving DecidableEq

/-- The decoded RGB frame returned by a successful capture
(`image::RgbImage`), abstracted to its dimensions and pixel data. -/
structure RgbImage where
  width : Nat
  height : Nat
  pixels : List Nat
deriving DecidableEq

/-- The driver calls `WebCam::capture` can issue, in order: `open_stream`
(inside `self.open()`), `camera.frame()`, `frame.decode_image()`, and
`stop_stream` (inside `self.close()`). -/
inductive DriverCall where
  | openStream
  | grabFrame
  | decodeFrame
  | closeStream
deriving DecidableEq

/-- Behaviour of the fake camera driver during one `capture` call: whether
each driver operation would succeed, the error messages the fallible ones
would produce, and the decoded frame delivered on full success. -/
structure CameraBehavior where
  openOk : Bool
  grabOk : Bool
  grabMsg : String
  decodeOk : Bool
  decodeMsg : String
  closeOk : Bool
  frame : RgbImage
deriving DecidableEq

/-- Stream-open state after the lazy-open prologue of `capture` (main.rs
lines 67-69): if the stream was already open nothing happens; otherwise
`open_stream` is attempted and opens the stream exactly when it succeeds
(its error is discarded by `let _ = self.open()`). -/
def streamAfterLazyOpen (streamOpen : Bool) (b : CameraBehavior) : Bool :=
  if streamOpen then true else b.openOk

/-- Driver calls issued by the lazy-open prologue of `capture`. -/
def lazyOpenCalls (streamOpen : Bool) : List DriverCall :=
  if streamOpen then [] else [DriverCall.openStream]

/-- `WebCam::capture` (main.rs lines 66-88) against a fake driver.  Returns
the stream-open state after the call, the list of driver calls issued, and
the `Result`.  Faithful to the source:
  - if the stream is not open, `open()` is attempted and its result
    discarded;
  - `camera.frame()` failure returns `FrameGrabError` at once (`?`);
  - `decode_image` failure returns `FrameDecodeError` at once (`?`);
  - only then, in `Discrete` mode, `close()` is attempted and its result
    discarded (the stream closes exactly when `stop_stream` succeeds);
  - the decoded frame is returned. -/
def capture (mode : WebCamMode) (streamOpen : Bool) (b : CameraBehavior) :
    Bool × List DriverCall × Except WebCamError RgbImage :=
  if b.grabOk then
    if b.decodeOk then
      match mode with
      | WebCamMode.Discrete =>
        ((if b.closeOk then false else streamAfterLazyOpen streamOpen b),
         lazyOpenCalls streamOpen
           ++ [DriverCall.grabFrame, DriverCall.decodeFrame, DriverCall.closeStream],
         Except.ok b.frame)
      | WebCamMode.Continuous =>
        (streamAfterLazyOpen streamOpen b,
         lazyOpenCalls streamOpen ++ [DriverCall.grabFrame, DriverCall.decodeFrame],
         Except.ok b.frame)
    else
      (streamAfterLazyOpen streamOpen b,
       lazyOpenCalls streamOpen ++ [DriverCall.grabFrame, DriverCall.decodeFrame],
       Except.error (WebCamError.FrameDecodeError b.decodeMsg))
  else
    (streamAfterLazyOpen streamOpen b,
     lazyOpenCalls streamOpen ++ [DriverCall.grabFrame],
     Except.error (WebCamError.FrameGrabError b.grabMsg))

/-- State shared between the sampling thread and the presentation layer in
`main` (main.rs lines 250-273): the mutex-guarded `is_too_close` boolean and
the window's visibility. -/
structure LoopState where
  isTooClose : Bool
  overlayVisible : Bool
deriving DecidableEq

/-- One completed iteration of the proximity-checking loop (main.rs lines
263-271): `is_close = !check()`, the shared boolean is assigned `is_close`
under the mutex, and `window.set_visible(is_close)` is called. -/
def loopIter (_st : LoopState) (checkResult : Bool) : LoopState :=
  { isTooClose := !checkResult, overlayVisible := !checkResult }

/-- A one-face sample of width 2, height 2, used as a concrete
re-calibration input. -/
def sampleTwo : List (List Rect) :=
  [[{ x := 0, y := 0, width := 2, height := 2 }]]

/-- A driver behaviour whose frame grab fails, everything else succeeding. -/
def grabFailBehavior : CameraBehavior :=
  { openOk := true, grabOk := false, grabMsg := "timeout", decodeOk := true,
    decodeMsg := "", closeOk := true, frame := { width := 0, height := 0, pixels := [] } }

/-- A driver behaviour in which every operation succeeds. -/
def allOkBehavior : CameraBehavior :=
  { openOk := true, grabOk := true, grabMsg := "", decodeOk := true,
    decodeMsg := "", closeOk := true, frame := { width := 4, height := 3, pixels := [7] } }

/-- Claim C1: for a calibrated monitor with at least one detected box,
`check` compares the first box's width and height individually against
`max_detection_size` with strict greater-than: it returns `false` exactly
when one dimension strictly exceeds the calibrated one and `true` exactly
when both are at most the calibrated ones; in particular with
`max_detection_size = {100,100}` a detection of `{100,100}` yields `true`
and `{101,100}` or `{100,101}` yields `false`. -/
theorem check_first_box_strict_comparison :
    (∀ (calib : NeckCheckCalibration) (face : Rect) (rest : List Rect),
      (check (some calib) (face :: rest) = Except.ok false
        ↔ (face.width > calib.max_detection_size.width
            ∨ face.height > calib.max_detection_size.height))
      ∧ (check (some calib) (face :: rest) = Except.ok true
        ↔ (face.width ≤ calib.max_detection_size.width
            ∧ face.height ≤ calib.max_detection_size.height)))
    ∧ check (some { max_detection_size := Size.new 100 100 })
        [{ x := 0, y := 0, width := 100, height := 100 }] = Except.ok true
    ∧ check (some { max_detection_size := Size.new 100 100 })
        [{ x := 0, y := 0, width := 101, height := 100 }] = Except.ok false
    ∧ check (some { max_detection_size := Size.new 100 100 })
        [{ x := 0, y := 0, width := 100, height := 101 }] = Except.ok false := by
  refine ⟨?_, rfl, rfl, rfl⟩
  intro calib face rest
  by_cases hc : face.width > calib.max_detection_size.width
      ∨ face.height > calib.max_detection_size.height
  · constructor
    · simp [check, hc]
    · simp only [check, if_pos hc]
      constructor
      · intro h
        exact absurd h (by simp)
      · intro h
        rcases hc with hc | hc
        · exact absurd h.1 (by omega)
        · exact absurd h.2 (by omega)
  · constructor
    · simp [check, hc]
    · simp only [check, if_neg hc]
      push_neg at hc
      simp [hc.1, hc.2]

/-- Claim C2 counterexample: there is a detection outcome (zero bounding
boxes) on which `check` with an uncalibrated monitor does not abort but
returns the ordinary boolean result `true`, refuting the claim that every
detection outcome leads to a panic. -/
theorem check_uncalibrated_zero_faces_no_panic :
    check none [] = Except.ok true := by
  rfl

/-- Claim C2 (amended): calling `check` on an uncalibrated monitor is a
fatal precondition violation (the `panic!("No calibration!")`, modelled as
`Except.error "No calibration!"`) whenever detection returns at least one
bounding box; with zero boxes it returns `true` without consulting the
calibration. -/
theorem check_uncalibrated_panics_on_detection :
    (∀ (face : Rect) (rest : List Rect),
      check none (face :: rest) = Except.error "No calibration!")
    ∧ check none [] = Except.ok true := by
  constructor
  · intro face rest
    rfl
  · rfl

/-- Claim C4: whenever detection returns zero bounding boxes, `check`
returns `true` for every numeric content of an existing calibration. -/
theorem check_zero_faces_true :
    ∀ (calib : NeckCheckCalibration), check (some calib) [] = Except.ok true := by
  intro calib
  rfl

/-- Claim C9: `check` tests the zero-face case before the
calibration-presence test, so an uncalibrated `check` with zero detected
faces returns `true` without aborting, and the panic (modelled as
`Except.error`) occurs exactly when the monitor is uncalibrated and at
least one face is detected. -/
theorem check_panic_iff_uncalibrated_and_face :
    (∀ (calibration : Option NeckCheckCalibration) (faces : List Rect),
      (∃ msg, check calibration faces = Except.error msg)
        ↔ (calibration = none ∧ faces ≠ []))
    ∧ check none [] = Except.ok true := by
  constructor
  · intro calibration faces
    cases faces with
    | nil => simp [check]
    | cons face rest =>
      cases calibration with
      | none => simp [check]
      | some calib =>
        simp only [check]
        constructor
        · rintro ⟨msg, hmsg⟩
          split at hmsg <;> simp_all
        · rintro ⟨h, -⟩
          exact absurd h (by simp)
  · rfl

/-- The per-sample filter of the calibration loop yields the empty list
exactly when the sample does not contain exactly one face. -/
theorem calibrateFilter_eq_nil_iff (s : List Rect) :
    calibrateFilter s = [] ↔ s.length ≠ 1 := by
  unfold calibrateFilter
  split
  · rename_i h
    simp only [true_iff]
    omega
  · rename_i h
    cases s with
    | nil => simp
    | cons a t =>
      have hl : t.length = 0 := by
        simp only [List.length_cons, gt_iff_lt, not_lt] at h
        omega
      simp [hl]

/-- Claim C3: the calibration loop continues (re-prompts) on every zero-face
or multi-face sample, completes exactly on a one-face sample, and the
recorded `max_detection_size` equals that single box's width and height
exactly; over a whole sample stream, calibration completes iff some sample
has exactly one face. -/
theorem calibrate_exactly_one_face :
    (∀ (sample : List Rect) (rest : List (List Rect)), sample.length ≠ 1 →
      calibrate (sample :: rest) = calibrate rest)
    ∧ (∀ (face : Rect) (rest : List (List Rect)),
      calibrate ([face] :: rest)
        = some { max_detection_size := Size.new face.width face.height })
    ∧ calibrate [] = none
    ∧ (∀ samples : List (List Rect),
      (calibrate samples).isSome = true ↔ ∃ s ∈ samples, s.length = 1) := by
  refine ⟨?_, ?_, rfl, ?_⟩
  · intro sample rest h
    have hnil : calibrateFilter sample = [] := (calibrateFilter_eq_nil_iff sample).mpr h
    simp [calibrate, hnil]
  · intro face rest
    rfl
  · intro samples
    induction samples with
    | nil => simp [calibrate]
    | cons s rest ih =>
      by_cases h : s.length = 1
      · have hne : calibrateFilter s ≠ [] := by
          rw [Ne, calibrateFilter_eq_nil_iff]
          simp [h]
        cases hf : calibrateFilter s with
        | nil => exact absurd hf hne
        | cons f t =>
          simp only [calibrate, hf, Option.isSome_some, true_iff]
          exact ⟨s, by simp, h⟩
      · have hnil : calibrateFilter s = [] := (calibrateFilter_eq_nil_iff s).mpr h
        simp only [calibrate, hnil, ih, List.mem_cons]
        constructor
        · rintro ⟨x, hx, hlen⟩
          exact ⟨x, Or.inr hx, hlen⟩
        · rintro ⟨x, hx | hx, hlen⟩
          · exact absurd (hx ▸ hlen) h
          · exact ⟨x, hx, hlen⟩

/-- Witness for claim C3 at a concrete sample stream: a zero-face sample is
skipped and the following one-face sample of size 50 by 80 completes the
calibration with exactly that size. -/
theorem calibrate_exactly_one_face_witness :
    calibrate [[], [{ x := 0, y := 0, width := 50, height := 80 }]]
      = some { max_detection_size := Size.new 50 80 } := by
  rw [calibrate_exactly_one_face.1 [] _ (by decide)]
  exact calibrate_exactly_one_face.2.1 _ _

/-- Claim C5 counterexample: with calibration already set to size 1 by 1, a
further `calibrate` call whose sample stream yields one face of size 2 by 2
overwrites the calibration with the new size (`self.calibration = Some(...)`
is assigned unconditionally), so the calibration value is not immutable once
set. -/
theorem recalibrate_overwrites_value :
    applyOp (some { max_detection_size := Size.new 1 1 })
        (MonitorOp.calibrateOp sampleTwo)
      = some { max_detection_size := Size.new 2 2 }
    ∧ applyOp (some { max_detection_size := Size.new 1 1 })
        (MonitorOp.calibrateOp sampleTwo)
      ≠ some { max_detection_size := Size.new 1 1 } := by
  decide

/-- One `NeckCheck` operation never turns a present calibration into an
absent one. -/
theorem applyOp_isSome (calibration : Option NeckCheckCalibration)
    (op : MonitorOp) (h : calibration.isSome = true) :
    (applyOp calibration op).isSome = true := by
  cases op with
  | checkOp faces => exact h
  | detectOp faces => exact h
  | calibrateOp samples =>
    cases hc : calibrate samples with
    | none => simpa [applyOp, hc] using h
    | some c => simp [applyOp, hc]

/-- A fold of `NeckCheck` operations never turns a present calibration into
an absent one. -/
theorem foldl_applyOp_isSome (ops : List MonitorOp) :
    ∀ calibration : Option NeckCheckCalibration, calibration.isSome = true →
      (List.foldl applyOp calibration ops).isSome = true := by
  induction ops with
  | nil =>
    intro c h
    simpa using h
  | cons op rest ih =>
    intro c h
    rw [List.foldl_cons]
    exact ih (applyOp c op) (applyOp_isSome c op h)

/-- Claim C5 (amended): once calibration is set to a `Some` value, no
sequence of `NeckCheck` operations ever resets it to `None` (the state
machine never returns to Uncalibrated), and any sequence free of `calibrate`
calls (`check`/`detect` only, the only calls `main` makes after its single
calibration) leaves the calibration value exactly unchanged; only a repeated
`calibrate` call can replace it with a new `Some` value. -/
theorem calibration_never_reset_amended :
    (∀ (c : NeckCheckCalibration) (ops : List MonitorOp),
      (List.foldl applyOp (some c) ops).isSome = true)
    ∧ (∀ (c : NeckCheckCalibration) (ops : List MonitorOp),
      (∀ op ∈ ops, op.isCalibrate = false) →
      List.foldl applyOp (some c) ops = some c) := by
  constructor
  · intro c ops
    exact foldl_applyOp_isSome ops (some c) rfl
  · intro c ops
    induction ops with
    | nil =>
      intro _
      rfl
    | cons op rest ih =>
      intro h
      have hop : op.isCalibrate = false := h op (by simp)
      have hstep : applyOp (some c) op = some c := by
        cases op with
        | checkOp faces => rfl
        | detectOp faces => rfl
        | calibrateOp samples => simp [MonitorOp.isCalibrate] at hop
      rw [List.foldl_cons, hstep]
      exact ih (fun o ho => h o (List.mem_cons_of_mem _ ho))

/-- Witness for claim C5 (amended) at a concrete state and operation list:
a check followed by a detect leaves calibration size 3 by 4 unchanged. -/
theorem calibration_never_reset_amended_witness :
    List.foldl applyOp (some { max_detection_size := Size.new 3 4 })
        [MonitorOp.checkOp [], MonitorOp.detectOp []]
      = some { max_detection_size := Size.new 3 4 } :=
  calibration_never_reset_amended.2 _ _ (by decide)

/-- Claim C6 counterexample: in discrete mode, a `capture` whose frame grab
fails returns early through the `?` operator without ever issuing the
stream close, and the stream stays open, refuting the claim that every
discrete-mode `capture` closes the stream before returning. -/
theorem discrete_capture_grab_failure_no_close :
    DriverCall.closeStream ∉ (capture WebCamMode.Discrete true grabFailBehavior).2.1
    ∧ (capture WebCamMode.Discrete true grabFailBehavior).1 = true := by
  decide

/-- Claim C6 (amended): in discrete mode, every `capture` that returns a
frame issues the stream close (and the stream ends closed whenever the
driver close succeeds); a discrete `capture` that fails at the grab or
decode step returns without closing.  In continuous mode `capture` never
issues a close, so a stream that was open stays open across consecutive
calls. -/
theorem capture_close_policy_amended :
    (∀ (streamOpen : Bool) (b : CameraBehavior),
      b.grabOk = true → b.decodeOk = true →
      (DriverCall.closeStream ∈ (capture WebCamMode.Discrete streamOpen b).2.1
       ∧ (b.closeOk = true → (capture WebCamMode.Discrete streamOpen b).1 = false)))
    ∧ (∀ (streamOpen : Bool) (b : CameraBehavior),
      DriverCall.closeStream ∉ (capture WebCamMode.Continuous streamOpen b).2.1
      ∧ (streamOpen = true → (capture WebCamMode.Continuous streamOpen b).1 = true)) := by
  constructor
  · intro streamOpen b hg hd
    constructor
    · simp [capture, hg, hd]
    · intro hcOk
      simp [capture, hg, hd, hcOk]
  · intro streamOpen b
    constructor
    · cases hg : b.grabOk <;> cases hd : b.decodeOk <;> cases streamOpen <;>
        simp [capture, hg, hd, lazyOpenCalls]
    · intro hOpen
      subst hOpen
      cases hg : b.grabOk <;> cases hd : b.decodeOk <;>
        simp [capture, hg, hd, streamAfterLazyOpen]

/-- Witness for claim C6 (amended) at a concrete driver behaviour in which
every operation succeeds: the discrete capture issues the close and leaves
the stream closed. -/
theorem capture_close_policy_amended_witness :
    DriverCall.closeStream ∈ (capture WebCamMode.Discrete true allOkBehavior).2.1
    ∧ (capture WebCamMode.Discrete true allOkBehavior).1 = false :=
  ⟨(capture_close_policy_amended.1 true allOkBehavior rfl rfl).1,
   (capture_close_policy_amended.1 true allOkBehavior rfl rfl).2 rfl⟩

/-- Claim C7: after every completed iteration of the proximity-checking
loop, the shared too-close boolean equals the negation of that iteration's
`check` result and the overlay's visibility is set to that same value; over
any completed sequence of iterations, both reflect the most recently
completed `check` result. -/
theorem alert_state_reflects_latest_check :
    (∀ (st : LoopState) (r : Bool),
      (loopIter st r).isTooClose = !r
      ∧ (loopIter st r).overlayVisible = (loopIter st r).isTooClose)
    ∧ (∀ (init : LoopState) (rs : List Bool) (r : Bool),
      (List.foldl loopIter init (rs ++ [r])).isTooClose = !r
      ∧ (List.foldl loopIter init (rs ++ [r])).overlayVisible = !r) := by
  constructor
  · intro st r
    exact ⟨rfl, rfl⟩
  · intro init rs r
    rw [List.foldl_append]
    exact ⟨rfl, rfl⟩

/-- Claim C8: when the stream is not open, `capture` issues the stream open
as its first driver call (and does not issue one when the stream is already
open); the lazy open is transparent to the caller: whenever grab and decode
succeed, `capture` returns the decoded RGB frame whether or not the stream
was open beforehand; and when the driver open succeeds the stream is open
for the rest of the call. -/
theorem capture_lazy_open_transparent :
    (∀ (mode : WebCamMode) (b : CameraBehavior),
      (capture mode false b).2.1.head? = some DriverCall.openStream
      ∧ DriverCall.openStream ∉ (capture mode true b).2.1)
    ∧ (∀ (mode : WebCamMode) (streamOpen : Bool) (b : CameraBehavior),
      b.grabOk = true → b.decodeOk = true →
      (capture mode streamOpen b).2.2 = Except.ok b.frame)
    ∧ (∀ b : CameraBehavior, b.openOk = true →
      streamAfterLazyOpen false b = true) := by
  refine ⟨?_, ?_, ?_⟩
  · intro mode b
    cases mode <;> cases hg : b.grabOk <;> cases hd : b.decodeOk <;>
      simp [capture, hg, hd, lazyOpenCalls]
  · intro mode streamOpen b hg hd
    cases mode <;> simp [capture, hg, hd]
  · intro b h
    simp [streamAfterLazyOpen, h]

/-- Witness for claim C8 at a concrete all-success driver behaviour: a
continuous-mode capture starting with the stream closed returns the decoded
frame. -/
theorem capture_lazy_open_transparent_witness :
    (capture WebCamMode.Continuous false allOkBehavior).2.2
      = Except.ok allOkBehavior.frame :=
  capture_lazy_open_transparent.2.1 WebCamMode.Continuous false allOkBehavior rfl rfl

/-- Claim C10: every error `capture` returns is a `FrameGrabError` or a
`FrameDecodeError` with the driver's message — never a `StreamOpenError` or
`StreamCloseError`, whose producing operations have their results discarded
by `let _ = ...` — and a discrete-mode `capture` that fails never issues the
stream close, leaving an open stream open. -/
theorem capture_error_taxonomy :
    (∀ (mode : WebCamMode) (streamOpen : Bool) (b : CameraBehavior) (e : WebCamError),
      (capture mode streamOpen b).2.2 = Except.error e →
      (e = WebCamError.FrameGrabError b.grabMsg
        ∨ e = WebCamError.FrameDecodeError b.decodeMsg))
    ∧ (∀ (mode : WebCamMode) (streamOpen : Bool) (b : CameraBehavior) (msg : String),
      (capture mode streamOpen b).2.2 ≠ Except.error (WebCamError.StreamOpenError msg)
      ∧ (capture mode streamOpen b).2.2 ≠ Except.error (WebCamError.StreamCloseError msg))
    ∧ (∀ (streamOpen : Bool) (b : CameraBehavior) (e : WebCamError),
      (capture WebCamMode.Discrete streamOpen b).2.2 = Except.error e →
      (DriverCall.closeStream ∉ (capture WebCamMode.Discrete streamOpen b).2.1
       ∧ (streamOpen = true → (capture WebCamMode.Discrete streamOpen b).1 = true))) := by
  refine ⟨?_, ?_, ?_⟩
  · intro mode streamOpen b e he
    cases hg : b.grabOk <;> cases hd : b.decodeOk <;> cases mode <;>
      simp_all [capture]
  · intro mode streamOpen b msg
    cases hg : b.grabOk <;> cases hd : b.decodeOk <;> cases mode <;>
      simp [capture, hg, hd]
  · intro streamOpen b e he
    cases hg : b.grabOk <;> cases hd : b.decodeOk <;>
      simp_all [capture, lazyOpenCalls, streamAfterLazyOpen]

/-- Witness for claim C10 at a concrete failing driver behaviour: the error
of a discrete capture whose grab fails is classified as a grab or decode
failure. -/
theorem capture_error_taxonomy_witness :
    WebCamError.FrameGrabError "timeout"
        = WebCamError.FrameGrabError grabFailBehavior.grabMsg
    ∨ WebCamError.FrameGrabError "timeout"
        = WebCamError.FrameDecodeError grabFailBehavior.decodeMsg :=
  capture_error_taxonomy.1 WebCamMode.Discrete true grabFailBehavior _ rfl

end NeckCheckModel
